import Mathlib

/-!
Verification development for the `react-native-apple-foundation-models`
repository. The TypeScript/Swift sources are shallowly embedded as Lean
definitions:

* JavaScript runtime values relevant to the schema validators are modelled by
  `JSValue` (JS `undefined` and `null` are distinguished; JS numbers are
  modelled by `Rat`, with a separate `nan` constructor standing for `NaN`;
  objects are association lists with distinct keys, first-match lookup).
* The JSON-Schema subset type of `src/AppleFoundationModels.types.ts` is the
  inductive `Schema`; `Schema.toJSValue` is the runtime value such a schema
  literal denotes.
* `validateJSONSchema` and `validateAgainstSchema` embed the two validators
  of `src/index.ts`.  In the source `validateJSONSchema` throws
  `Error("ERR_OBJECT_SCHEMA_INVALID")` on a bad shape; here it returns
  `false` in exactly those situations and `true` where the source returns
  normally.  To obtain structurally recursive (hence computable-by-`decide`)
  definitions, the source's lookup-a-field-then-recurse-on-it steps are
  fused into mutually recursive helpers; the lemmas named with an `_eq`
  suffix below prove each helper equal to the corresponding
  lookup-then-recurse composition, recovering the source shape exactly.
* Error normalization (`src/errors.ts`), the session wrapper
  (`src/LLMSession.ts`) and the dispatcher entry points `generateText` /
  `generateObject` (`src/index.ts`) are embedded below, with the native
  module boundary and `JSON.parse` passed in as explicit function parameters
  (they are external capabilities, not code of this repository).
-/

/-- JS `String.prototype.trim`: strip leading and trailing whitespace.
Modelled over the character list so that it reduces inside the kernel
(`jsTrim` of core Lean does not); whitespace is `Char.isWhitespace`. -/
def jsTrim (s : String) : String :=
  String.mk (((s.data.dropWhile Char.isWhitespace).reverse.dropWhile Char.isWhitespace).reverse)

/-- JavaScript runtime values, as needed by the schema validators. -/
inductive JSValue where
  | undef
  | null
  | boolv (b : Bool)
  | num (q : Rat)
  | nan
  | str (s : String)
  | arr (elems : List JSValue)
  | obj (fields : List (String × JSValue))

/-- First-match lookup in an object's field list (JS property access on own
properties; keys are assumed distinct, as produced by `JSON.parse`). -/
def fieldLookup : List (String × JSValue) → String → Option JSValue
  | [], _ => none
  | (k, v) :: rest, key => if k = key then some v else fieldLookup rest key

/-- The five `type` tags accepted by the schema-shape validator
(src/index.ts, `const allowed`). -/
def allowedTypeTags : List String := ["string", "number", "boolean", "array", "object"]

/-!
Embedding of `validateJSONSchema` (src/index.ts lines 88-109) acting on an
arbitrary runtime value.  The source throws `ERR_OBJECT_SCHEMA_INVALID` where
this definition returns `false`:

* a non-object value has no (string) `type` property, so the `!t` check
  throws; likewise a missing or non-string `type` field (a falsy or
  non-`allowed` tag);
* for `type: "array"` the source recurses into `s.items`; if `items` is
  absent the recursive call receives `undefined` and throws, embedded here as
  the `.getD false`;
* for `type: "object"` the check `!props || typeof props !== "object"` admits
  exactly JS objects and JS arrays, whose `Object.keys` enumeration yields
  the field values resp. the array elements, each validated recursively.

The field lookups are fused with the recursive calls (`vjsItemsField`,
`vjsPropsField`) so the definition is structurally recursive; the lemmas
`vjsItemsField_eq` and `vjsPropsField_eq` recover the source's
lookup-then-recurse composition.
-/
mutual
/-- Schema-shape validator over a runtime value; see the comment above. -/
def validateJSONSchema : JSValue → Bool
  | .obj fields =>
    match fieldLookup fields "type" with
    | some (.str t) =>
      if t ∈ allowedTypeTags then
        (if t = "array" then (vjsItemsField fields "items").getD false else true) &&
        (if t = "object" then (vjsPropsField fields "properties").getD false else true)
      else false
    | _ => false
  | _ => false

/-- Lookup of a field fused with `validateJSONSchema` of its value. -/
def vjsItemsField : List (String × JSValue) → String → Option Bool
  | [], _ => none
  | (k, v) :: rest, key =>
    if k = key then some (validateJSONSchema v) else vjsItemsField rest key

/-- Lookup of a field fused with `vjsPropsValue` of its value. -/
def vjsPropsField : List (String × JSValue) → String → Option Bool
  | [], _ => none
  | (k, v) :: rest, key =>
    if k = key then some (vjsPropsValue v) else vjsPropsField rest key

/-- Validation of a `properties` value: an object validates every field
value, an array every element, anything else fails the
`!props || typeof props !== "object"` check. -/
def vjsPropsValue : JSValue → Bool
  | .obj props => vjsFieldValues props
  | .arr elems => vjsElems elems
  | _ => false

/-- Every field value of a `properties` object is a valid schema. -/
def vjsFieldValues : List (String × JSValue) → Bool
  | [] => true
  | (_, v) :: rest => validateJSONSchema v && vjsFieldValues rest

/-- Every element of a `properties` array is a valid schema. -/
def vjsElems : List JSValue → Bool
  | [] => true
  | v :: rest => validateJSONSchema v && vjsElems rest
end

theorem vjsItemsField_eq (fields : List (String × JSValue)) (key : String) :
    vjsItemsField fields key = (fieldLookup fields key).map validateJSONSchema := by
  induction fields with
  | nil => rfl
  | cons kv rest ih =>
    obtain ⟨k, v⟩ := kv
    by_cases hk : k = key <;> simp [vjsItemsField, fieldLookup, hk, ih]

theorem vjsPropsField_eq (fields : List (String × JSValue)) (key : String) :
    vjsPropsField fields key = (fieldLookup fields key).map vjsPropsValue := by
  induction fields with
  | nil => rfl
  | cons kv rest ih =>
    obtain ⟨k, v⟩ := kv
    by_cases hk : k = key <;> simp [vjsPropsField, fieldLookup, hk, ih]

theorem vjsFieldValues_eq (props : List (String × JSValue)) :
    vjsFieldValues props = props.all (fun kv => validateJSONSchema kv.2) := by
  induction props with
  | nil => rfl
  | cons kv rest ih =>
    obtain ⟨k, v⟩ := kv
    simp [vjsFieldValues, ih]

theorem vjsElems_eq (elems : List JSValue) :
    vjsElems elems = elems.all validateJSONSchema := by
  induction elems with
  | nil => rfl
  | cons v rest ih => simp [vjsElems, ih]

/-- The JSON-Schema subset of `src/AppleFoundationModels.types.ts`
(`export type JSONSchema`): a closed recursive tagged union. -/
inductive Schema where
  | string (minLength maxLength : Option Nat) (enum : Option (List String))
  | number (minimum maximum : Option Rat)
  | boolean
  | array (items : Schema) (minItems maxItems : Option Nat)
  | object (properties : List (String × Schema)) (required : Option (List String))

mutual
/-- The runtime JS value denoted by a (statically well-typed) schema literal:
a `type` tag first, then the declared fields, optional ones when present. -/
def Schema.toJSValue : Schema → JSValue
  | .string minL maxL enum =>
    .obj ([("type", JSValue.str "string")]
      ++ (match minL with | some n => [("minLength", JSValue.num n)] | none => [])
      ++ (match maxL with | some n => [("maxLength", JSValue.num n)] | none => [])
      ++ (match enum with | some es => [("enum", JSValue.arr (es.map JSValue.str))] | none => []))
  | .number mini maxi =>
    .obj ([("type", JSValue.str "number")]
      ++ (match mini with | some q => [("minimum", JSValue.num q)] | none => [])
      ++ (match maxi with | some q => [("maximum", JSValue.num q)] | none => []))
  | .boolean => .obj [("type", JSValue.str "boolean")]
  | .array items minI maxI =>
    .obj ([("type", JSValue.str "array"), ("items", items.toJSValue)]
      ++ (match minI with | some n => [("minItems", JSValue.num n)] | none => [])
      ++ (match maxI with | some n => [("maxItems", JSValue.num n)] | none => []))
  | .object properties required =>
    .obj ([("type", JSValue.str "object"),
           ("properties", JSValue.obj (Schema.propsToJSValue properties))]
      ++ (match required with | some rs => [("required", JSValue.arr (rs.map JSValue.str))] | none => []))

/-- Pointwise `Schema.toJSValue` over a `properties` record. -/
def Schema.propsToJSValue : List (String × Schema) → List (String × JSValue)
  | [] => []
  | (k, s) :: rest => (k, Schema.toJSValue s) :: Schema.propsToJSValue rest
end

/-!
Embedding of `validateAgainstSchema` (src/index.ts lines 112-151), the
structural conformance check of a decoded value against the caller's schema.

* `string`: a `typeof` check, then `minLength`/`maxLength` on the string
  length, then `enum` membership when an `enum` array is present (present but
  empty rejects every string, as in the source, where `[]` is truthy);
* `number`: `typeof value === "number"` admits JS `NaN`, which the explicit
  `Number.isNaN` check then rejects (the `nan` constructor); then bounds;
* `boolean`: a `typeof` check only;
* `array`: `Array.isArray`, then `every` element against `items` —
  `minItems` / `maxItems` are never consulted;
* `object`: rejects `null`, arrays and non-objects; each declared property
  that is present must conform; a missing property fails only when listed in
  `required`; keys of the value not declared in the schema are ignored, and
  the per-property loop (`validateProperties`) yields `false` exactly when
  the source's early `return false` fires.
-/
mutual
/-- Value-against-schema conformance check; see the comment above. -/
def validateAgainstSchema (value : JSValue) (schema : Schema) : Bool :=
  match schema with
  | .string minL maxL enum =>
    match value with
    | .str s =>
      if (match minL with | some n => decide (s.length < n) | none => false) then false
      else if (match maxL with | some n => decide (s.length > n) | none => false) then false
      else if (match enum with | some es => !(es.contains s) | none => false) then false
      else true
    | _ => false
  | .number mini maxi =>
    match value with
    | .num q =>
      if (match mini with | some m => decide (q < m) | none => false) then false
      else if (match maxi with | some m => decide (q > m) | none => false) then false
      else true
    | _ => false
  | .boolean =>
    match value with
    | .boolv _ => true
    | _ => false
  | .array items _ _ =>
    match value with
    | .arr elems => elems.all (fun v => validateAgainstSchema v items)
    | _ => false
  | .object properties required =>
    match value with
    | .obj fields => validateProperties fields required properties
    | _ => false
termination_by structural schema

/-- The per-declared-property loop of the `object` case of
`validateAgainstSchema`. -/
def validateProperties (fields : List (String × JSValue))
    (required : Option (List String)) : List (String × Schema) → Bool
  | [] => true
  | (k, s) :: rest =>
    (match fieldLookup fields k with
     | none => !((required.getD []).contains k)
     | some v => validateAgainstSchema v s)
    && validateProperties fields required rest
end

/-- Raw JavaScript values as they can be thrown or rejected across the native
boundary and fed to the error normalizer of `src/errors.ts`:

* `tge` is an instance of the `TextGenerationError` class (which extends
  `Error`), with its `code`/`message` string fields, its arbitrary `cause`
  and its optional numeric `nativeCode` / string `nativeDomain`;
* `errObj` is any other `instanceof Error` value: `message` is always a
  string, while `code`, `cause`, `nativeCode`, `nativeDomain` are arbitrary
  extra properties that may be absent;
* `obj` is a non-`Error` object with the same five properties read by the
  normalizer, each possibly absent;
* the remaining constructors are non-object values (JS numbers modelled as
  integers here; none of the normalizer's checks inspect their content). -/
inductive RawValue where
  | strv (s : String)
  | numv (n : Int)
  | boolr (b : Bool)
  | nullr
  | undefr
  | tge (code message : String) (cause : Option RawValue)
        (nativeCode : Option Int) (nativeDomain : Option String)
  | errObj (message : String) (code cause nativeCode nativeDomain : Option RawValue)
  | obj (code message cause nativeCode nativeDomain : Option RawValue)

/-- The normalized error shape of the `TextGenerationError` class
(src/errors.ts lines 22-48). -/
structure TextGenerationError where
  code : String
  message : String
  cause : Option RawValue
  nativeCode : Option Int
  nativeDomain : Option String

/-- A `TextGenerationError` instance seen again as a raw JS value (for
re-throwing it across a boundary). -/
def TextGenerationError.toRaw (e : TextGenerationError) : RawValue :=
  .tge e.code e.message e.cause e.nativeCode e.nativeDomain

/-- The closed set `TEXT_GENERATION_ERROR_CODES` of src/errors.ts lines 3-12. -/
def TEXT_GENERATION_ERROR_CODES : List String :=
  ["ERR_TEXT_GENERATION_UNSUPPORTED",
   "ERR_TEXT_PROMPT_INVALID",
   "ERR_TEXT_GENERATION_INVALID_ARGUMENT",
   "ERR_TEXT_GENERATION_CANCELED",
   "ERR_TEXT_GENERATION_TIMEOUT",
   "ERR_TEXT_GENERATION_RUNTIME",
   "ERR_TEXT_GENERATION_MODEL_UNAVAILABLE"]

/-- Embedding of `isNativeErrorLike` (src/errors.ts lines 50-58): a non-null
object whose `code` and `message` properties are both strings. -/
def isNativeErrorLike : RawValue → Bool
  | .tge _ _ _ _ _ => true
  | .errObj _ (some (.strv _)) _ _ _ => true
  | .obj (some (.strv _)) (some (.strv _)) _ _ _ => true
  | _ => false

/-- JS `error instanceof Error`. -/
def isErrorInstance : RawValue → Bool
  | .tge _ _ _ _ _ => true
  | .errObj _ _ _ _ _ => true
  | _ => false

/-- The `code` property when it is a string (JS `typeof e.code === "string"`,
and the comparison `e.code === "..."` on an object can only succeed then). -/
def rawCodeString : RawValue → Option String
  | .tge c _ _ _ _ => some c
  | .errObj _ (some (.strv c)) _ _ _ => some c
  | .obj (some (.strv c)) _ _ _ _ => some c
  | _ => none

/-- The `message` property when it is a string. -/
def rawMessageString : RawValue → Option String
  | .tge _ m _ _ _ => some m
  | .errObj m _ _ _ _ => some m
  | .obj _ (some (.strv m)) _ _ _ => some m
  | _ => none

/-- A property value read as an optional number
(`typeof x === "number" ? x : undefined`). -/
def propAsNumber : Option RawValue → Option Int
  | some (.numv n) => some n
  | _ => none

/-- A property value read as an optional string
(`typeof x === "string" ? x : undefined`). -/
def propAsString : Option RawValue → Option String
  | some (.strv s) => some s
  | _ => none

/-- The final `return new TextGenerationError({code: "ERR_TEXT_GENERATION_RUNTIME", ...})`
of `toTextGenerationError` (src/errors.ts lines 80-86).  The message is the JS
expression `(isNativeErrorLike(error) && error.message) ||
(error instanceof Error ? error.message : "Text generation failed.")`, where an
empty message string is falsy and moves evaluation to the next alternative. -/
def runtimeFallback (error : RawValue) : TextGenerationError :=
  let firstAlternative : Option String :=
    if isNativeErrorLike error then
      match rawMessageString error with
      | some m => if m = "" then none else some m
      | none => none
    else none
  { code := "ERR_TEXT_GENERATION_RUNTIME",
    message :=
      match firstAlternative with
      | some m => m
      | none =>
        match error with
        | .errObj m _ _ _ _ => m
        | .tge _ m _ _ _ => m
        | _ => "Text generation failed.",
    cause := if isErrorInstance error then some error else none,
    nativeCode := none,
    nativeDomain := none }

/-- Embedding of `toTextGenerationError` (src/errors.ts lines 60-87).

* a `TextGenerationError` instance is returned unchanged;
* otherwise a native-error-like value whose string `code` is in
  `TEXT_GENERATION_ERROR_CODES` keeps its code, message and cause, plus
  `nativeCode`/`nativeDomain` when they have the right primitive type
  (`String(error.message ?? ...)` is the identity here because `message` is
  already a string on this branch);
* everything else is coerced by `runtimeFallback`. -/
def toTextGenerationError (error : RawValue) : TextGenerationError :=
  match error with
  | .tge c m cs nc nd =>
    { code := c, message := m, cause := cs, nativeCode := nc, nativeDomain := nd }
  | .errObj m (some (.strv c)) cs nc nd =>
    if c ∈ TEXT_GENERATION_ERROR_CODES then
      { code := c, message := m, cause := cs,
        nativeCode := propAsNumber nc, nativeDomain := propAsString nd }
    else runtimeFallback (.errObj m (some (.strv c)) cs nc nd)
  | .obj (some (.strv c)) (some (.strv m)) cs nc nd =>
    if c ∈ TEXT_GENERATION_ERROR_CODES then
      { code := c, message := m, cause := cs,
        nativeCode := propAsNumber nc, nativeDomain := propAsString nd }
    else runtimeFallback (.obj (some (.strv c)) (some (.strv m)) cs nc nd)
  | e => runtimeFallback e

/-- `TextGenerationOptions` of src/AppleFoundationModels.types.ts (JS numbers
for `temperature` modelled as rationals). -/
structure TextGenerationOptions where
  prompt : String
  instructions : Option String
  temperature : Option Rat
  maxOutputTokens : Option Nat
  sessionId : Option String

/-- `TextGenerationResult` of src/AppleFoundationModels.types.ts. -/
structure TextGenerationResult where
  text : String
  sessionId : String

/-- `NativeTextGenerationOptions`: the native-facing shape, with `system` in
place of `instructions`. -/
structure NativeTextGenerationOptions where
  prompt : String
  system : Option String
  temperature : Option Rat
  maxOutputTokens : Option Nat
  sessionId : Option String

/-- Embedding of `generateText` (src/index.ts lines 58-80).  The native module
call is the explicit `native` parameter; a rejection of that call is
normalized and re-thrown, while an empty trimmed prompt throws a plain
`Error` (no `code` property) without invoking `native`. -/
def generateText (options : TextGenerationOptions)
    (native : NativeTextGenerationOptions → Except RawValue TextGenerationResult) :
    Except RawValue TextGenerationResult :=
  let prompt := jsTrim options.prompt
  if prompt = "" then
    .error (.errObj "Prompt must be a non-empty string." none none none none)
  else
    match native { prompt := prompt, system := options.instructions.map jsTrim,
                   temperature := options.temperature,
                   maxOutputTokens := options.maxOutputTokens,
                   sessionId := options.sessionId } with
    | .ok result => .ok result
    | .error e => .error (toTextGenerationError e).toRaw

/-- `CreateLLMSessionOptions` of src/LLMSession.ts. -/
structure CreateLLMSessionOptions where
  instructions : Option String
  sessionId : Option String

/-- The two private fields of the `LLMSession` class (src/LLMSession.ts lines
19-21): the lazily-established session id and the current instructions. -/
structure SessionState where
  sessionId : Option String
  instructions : Option String

/-- The private `LLMSession` constructor (src/LLMSession.ts lines 23-30):
`this._instructions = instructions?.trim() || undefined` and
`this._sessionId = sessionId?.trim() || undefined` (an empty trimmed string
is falsy and becomes `undefined`). -/
def LLMSession.construct (options : CreateLLMSessionOptions) : SessionState :=
  { instructions :=
      match options.instructions.map jsTrim with
      | some v => if v = "" then none else some v
      | none => none,
    sessionId :=
      match options.sessionId.map jsTrim with
      | some v => if v = "" then none else some v
      | none => none }

/-- `LLMSession.create` (src/LLMSession.ts lines 32-37): no native call, just
the constructor. -/
def LLMSession.create (options : CreateLLMSessionOptions) : SessionState :=
  LLMSession.construct options

/-- `LLMSession.reset` (src/LLMSession.ts lines 47-52): replaces only the
instructions (`instructions?.trim() || undefined`), leaving the id untouched. -/
def LLMSession.reset (st : SessionState) (instructions : Option String) : SessionState :=
  { st with
    instructions :=
      match instructions.map jsTrim with
      | some v => if v = "" then none else some v
      | none => none }

/-- `AskParams` of src/LLMSession.ts. -/
structure AskParams where
  prompt : String
  temperature : Option Rat
  maxOutputTokens : Option Nat

/-- The `NativeTextGenerationOptions` request object that `LLMSession.ask`
builds and hands to the native `generateText` call (src/LLMSession.ts lines
73-79): the trimmed prompt, the current instructions as `system`, the
caller's knobs, and the current session id. -/
def buildAskOptions (st : SessionState) (p : AskParams) : NativeTextGenerationOptions :=
  { prompt := jsTrim p.prompt,
    system := st.instructions,
    temperature := p.temperature,
    maxOutputTokens := p.maxOutputTokens,
    sessionId := st.sessionId }

/-- Embedding of `LLMSession.ask` (src/LLMSession.ts lines 59-89), returning
the successor state together with the outcome.  A trimmed-empty prompt throws
the normalized `ERR_TEXT_PROMPT_INVALID` error and the native function is
irrelevant; on a successful native response the stored id is overwritten by
`result.sessionId`; a native rejection leaves the state alone and re-throws
the normalized error. -/
def LLMSession.ask (st : SessionState) (p : AskParams)
    (native : NativeTextGenerationOptions → Except RawValue TextGenerationResult) :
    SessionState × Except TextGenerationError String :=
  if jsTrim p.prompt = "" then
    (st, .error (toTextGenerationError
      (.obj (some (.strv "ERR_TEXT_PROMPT_INVALID"))
            (some (.strv "Prompt must be a non-empty string.")) none none none)))
  else
    match native (buildAskOptions st p) with
    | .ok result => ({ st with sessionId := some result.sessionId }, .ok result.text)
    | .error e => (st, .error (toTextGenerationError e))

/-- `ObjectGenerationOptions` of src/AppleFoundationModels.types.ts. -/
structure ObjectGenerationOptions where
  prompt : String
  instructions : Option String
  schema : Schema
  sessionId : Option String

/-- `ObjectGenerationResult`: the decoded object plus the session id. -/
structure ObjectGenerationResult where
  object : JSValue
  sessionId : String

/-- `NativeObjectGenerationOptions` of src/AppleFoundationModels.types.ts.
The source sends `JSON.stringify(options.schema)`; serialization to a string
is elided here and the schema's runtime value is carried directly. -/
structure NativeObjectGenerationOptions where
  prompt : String
  system : Option String
  schema : JSValue
  sessionId : Option String
  temperature : Option Rat
  maxOutputTokens : Option Nat

/-- `NativeObjectGenerationResult`: the raw JSON string and the session id. -/
structure NativeObjectGenerationResult where
  json : String
  sessionId : String

/-- The fixed guidance block of `generateObject` (src/index.ts lines 170-173)
after the `guidance.trim()` the source applies to it. -/
def guidance : String :=
  "You must return ONLY valid JSON that conforms to this schema. No prose.\nIf a field is not derivable, return a sensible default or an empty value that fits the schema constraints."

/-- The composed system instruction of `generateObject` (src/index.ts lines
175-178): `[base, guidance.trim()]` filtered to non-empty strings and joined
with a blank line, where `base` is the caller's trimmed instructions (an
untrimmed-empty `instructions` is falsy and yields no base). -/
def composedSystem (instructions : Option String) : String :=
  let base : Option String :=
    match instructions with
    | some s => if s = "" then none else some (jsTrim s)
    | none => none
  match base with
  | some b => if b = "" then guidance else b ++ "\n\n" ++ guidance
  | none => guidance

/-- The `TextGenerationOptions` with which `generateObject`'s fallback path
invokes `generateText` (src/index.ts lines 227-234): the trimmed prompt, the
composed system instructions (`system || undefined`), the caller's session
id, temperature 0.2 and a 512-token bound. -/
def fallbackTextOptions (options : ObjectGenerationOptions) : TextGenerationOptions :=
  let system := composedSystem options.instructions
  { prompt := jsTrim options.prompt,
    instructions := if system = "" then none else some system,
    sessionId := options.sessionId,
    temperature := some (0.2 : Rat),
    maxOutputTokens := some 512 }

/-- The `NativeObjectGenerationOptions` sent on the guided path (src/index.ts
lines 195-202). -/
def guidedNativeOptions (options : ObjectGenerationOptions) : NativeObjectGenerationOptions :=
  let system := composedSystem options.instructions
  { prompt := jsTrim options.prompt,
    system := if system = "" then none else some system,
    schema := options.schema.toJSValue,
    sessionId := options.sessionId,
    temperature := some (0.2 : Rat),
    maxOutputTokens := some 512 }

/-- The text-based fallback path of `generateObject` (src/index.ts lines
225-269): call `generateText`; re-wrap its failure as an Error carrying the
`ERR_OBJECT_GENERATION_RUNTIME` code and the underlying string message when
one exists; then `JSON.parse` the text and validate the result against the
schema, each failure yielding an `ERR_OBJECT_GENERATION_DECODE_FAILED` Error. -/
def objectFallback (options : ObjectGenerationOptions)
    (parseJSON : String → Except RawValue JSValue)
    (nativeText : NativeTextGenerationOptions → Except RawValue TextGenerationResult) :
    Except RawValue ObjectGenerationResult :=
  match generateText (fallbackTextOptions options) nativeText with
  | .error e =>
    let message :=
      match rawMessageString e with
      | some m => m
      | none => "Object generation failed"
    .error (.errObj message (some (.strv "ERR_OBJECT_GENERATION_RUNTIME")) none none none)
  | .ok r =>
    match parseJSON r.text with
    | .error _ =>
      .error (.errObj "Model did not return valid JSON"
        (some (.strv "ERR_OBJECT_GENERATION_DECODE_FAILED")) none none none)
    | .ok parsed =>
      if validateAgainstSchema parsed options.schema then
        .ok { object := parsed, sessionId := r.sessionId }
      else
        .error (.errObj "Model output does not match schema"
          (some (.strv "ERR_OBJECT_GENERATION_DECODE_FAILED")) none none none)

/-- The body of the guided-path `try` block of `generateObject` (src/index.ts
lines 186-210): invoke the optional native capability, `JSON.parse` its JSON
string (a parse failure is an uncaught throw inside the `try`), validate
against the schema (a mismatch throws the `ERR_OBJECT_GENERATION_DECODE_FAILED`
Error, also inside the `try`). -/
def guidedAttempt (options : ObjectGenerationOptions)
    (parseJSON : String → Except RawValue JSValue)
    (nativeObject : NativeObjectGenerationOptions → Except RawValue NativeObjectGenerationResult) :
    Except RawValue ObjectGenerationResult :=
  match nativeObject (guidedNativeOptions options) with
  | .error e => .error e
  | .ok r =>
    match parseJSON r.json with
    | .error pe => .error pe
    | .ok parsed =>
      if validateAgainstSchema parsed options.schema then
        .ok { object := parsed, sessionId := r.sessionId }
      else
        .error (.errObj "Model output does not match schema"
          (some (.strv "ERR_OBJECT_GENERATION_DECODE_FAILED")) none none none)

/-- Embedding of `generateObject` (src/index.ts lines 159-270).  The optional
native guided capability is `nativeObject` (`none` models a module without a
`generateObject` function).  After the prompt and schema-shape checks, the
guided path is preferred when present; its `catch` falls through to the
text-based fallback exactly when the caught value is an object whose `code`
is `"ERR_TEXT_GENERATION_UNSUPPORTED"` (src/index.ts lines 211-222), and
re-throws the caught value unchanged otherwise. -/
def generateObject (options : ObjectGenerationOptions)
    (parseJSON : String → Except RawValue JSValue)
    (nativeObject : Option (NativeObjectGenerationOptions → Except RawValue NativeObjectGenerationResult))
    (nativeText : NativeTextGenerationOptions → Except RawValue TextGenerationResult) :
    Except RawValue ObjectGenerationResult :=
  if jsTrim options.prompt = "" then
    .error (.errObj "ERR_OBJECT_PROMPT_INVALID" none none none none)
  else if !validateJSONSchema options.schema.toJSValue then
    .error (.errObj "ERR_OBJECT_SCHEMA_INVALID" none none none none)
  else
    match nativeObject with
    | some f =>
      match guidedAttempt options parseJSON f with
      | .ok r => .ok r
      | .error e =>
        if rawCodeString e = some "ERR_TEXT_GENERATION_UNSUPPORTED" then
          objectFallback options parseJSON nativeText
        else
          .error e
    | none => objectFallback options parseJSON nativeText

/-- JS property access `v[key]` as used on schema nodes: a field of an object,
`undefined` (here `none`) on everything else. -/
def schemaField (v : JSValue) (key : String) : Option JSValue :=
  match v with
  | .obj fields => fieldLookup fields key
  | _ => none

/-- The `type` tag of a schema node when it is a string
(the `(schema as {type: string})?.type` read of the source). -/
def schemaTypeTag (v : JSValue) : Option String :=
  match schemaField v "type" with
  | some (.str t) => some t
  | _ => none

/-- One recursion step of the schema-shape validator, as described by the
spec: from an `array`-tagged node into its `items`, and from an
`object`-tagged node into every entry of its `properties` (the source's
`Object.keys` enumeration also admits an array of schemas there). -/
inductive SchemaChild : JSValue → JSValue → Prop where
  | items {s c : JSValue} :
      schemaTypeTag s = some "array" → schemaField s "items" = some c →
      SchemaChild s c
  | propField {s c : JSValue} {props : List (String × JSValue)} {k : String} :
      schemaTypeTag s = some "object" → schemaField s "properties" = some (.obj props) →
      (k, c) ∈ props → SchemaChild s c
  | propElem {s c : JSValue} {elems : List JSValue} :
      schemaTypeTag s = some "object" → schemaField s "properties" = some (.arr elems) →
      c ∈ elems → SchemaChild s c

/-- A node at any depth of a schema: the reflexive-transitive closure of
`SchemaChild`. -/
inductive SchemaReach : JSValue → JSValue → Prop where
  | refl (s : JSValue) : SchemaReach s s
  | step {a b c : JSValue} : SchemaChild a b → SchemaReach b c → SchemaReach a c

/-- A schema node the claim calls invalid: its `type` tag is missing or not
one of the five allowed kinds, or it is an `object` schema without a
`properties` field. -/
def BadSchemaNode (v : JSValue) : Prop :=
  (∀ t ∈ allowedTypeTags, schemaTypeTag v ≠ some t) ∨
  (schemaTypeTag v = some "object" ∧ schemaField v "properties" = none)

theorem schemaTypeTag_some {fields : List (String × JSValue)} {t : String}
    (h : schemaTypeTag (.obj fields) = some t) :
    fieldLookup fields "type" = some (.str t) := by
  simp only [schemaTypeTag, schemaField] at h
  rcases hf : fieldLookup fields "type" with _ | w <;> rw [hf] at h
  · simp at h
  · cases w <;> simp at h
    subst h
    rfl

theorem validateJSONSchema_tag_none {v : JSValue}
    (h : schemaTypeTag v = none) : validateJSONSchema v = false := by
  cases v <;> simp [validateJSONSchema]
  case obj fields =>
    simp only [schemaTypeTag, schemaField] at h
    rcases hf : fieldLookup fields "type" with _ | w
    · rfl
    · rw [hf] at h
      cases w <;> simp_all

theorem validateJSONSchema_tag_not_allowed {v : JSValue} {t : String}
    (h : schemaTypeTag v = some t) (hna : t ∉ allowedTypeTags) :
    validateJSONSchema v = false := by
  cases v
  case obj fields =>
    have hf := schemaTypeTag_some h
    simp [validateJSONSchema, hf, hna]
  all_goals simp [schemaTypeTag, schemaField] at h

theorem validateJSONSchema_object_no_props {v : JSValue}
    (h : schemaTypeTag v = some "object") (hp : schemaField v "properties" = none) :
    validateJSONSchema v = false := by
  cases v
  case obj fields =>
    have hf := schemaTypeTag_some h
    simp only [schemaField] at hp
    simp [validateJSONSchema, hf, vjsPropsField_eq, hp, allowedTypeTags]
  all_goals simp [schemaTypeTag, schemaField] at h

theorem validateJSONSchema_child {a b : JSValue} (hc : SchemaChild a b)
    (ha : validateJSONSchema a = true) : validateJSONSchema b = true := by
  cases hc
  case items ht hi =>
    cases a
    case obj fields =>
      have hf := schemaTypeTag_some ht
      simp only [schemaField] at hi
      simp [validateJSONSchema, hf, vjsItemsField_eq, hi, allowedTypeTags] at ha
      exact ha
    all_goals simp [schemaField] at hi
  case propField props k ht hp hmem =>
    cases a
    case obj fields =>
      have hf := schemaTypeTag_some ht
      simp only [schemaField] at hp
      simp [validateJSONSchema, hf, vjsPropsField_eq, hp, vjsPropsValue,
            vjsFieldValues_eq, List.all_eq_true, allowedTypeTags] at ha
      exact ha k b hmem
    all_goals simp [schemaField] at hp
  case propElem elems ht hp hmem =>
    cases a
    case obj fields =>
      have hf := schemaTypeTag_some ht
      simp only [schemaField] at hp
      simp [validateJSONSchema, hf, vjsPropsField_eq, hp, vjsPropsValue,
            vjsElems_eq, List.all_eq_true, allowedTypeTags] at ha
      exact ha b hmem
    all_goals simp [schemaField] at hp

theorem validateJSONSchema_reach {a b : JSValue} (hr : SchemaReach a b)
    (ha : validateJSONSchema a = true) : validateJSONSchema b = true := by
  induction hr with
  | refl s => exact ha
  | step hc _ ih => exact ih (validateJSONSchema_child hc ha)

theorem validateJSONSchema_bad {v : JSValue} (hb : BadSchemaNode v) :
    validateJSONSchema v = false := by
  rcases hb with hall | ⟨ht, hp⟩
  · rcases htag : schemaTypeTag v with _ | t
    · exact validateJSONSchema_tag_none htag
    · by_cases hmem : t ∈ allowedTypeTags
      · exact absurd htag (hall t hmem)
      · exact validateJSONSchema_tag_not_allowed htag hmem
  · exact validateJSONSchema_object_no_props ht hp

/-- C6: `validateJSONSchema` fails (with `SCHEMA_INVALID`) whenever any node
at any depth — reached through `array.items` and the entries of
`object.properties` — has a missing `type` tag or one outside the five
allowed kinds, or is an `object` schema whose `properties` is missing; in
particular it fails for the runtime values of `{type: "tuple"}` and of an
object schema without `properties`. -/
theorem c6_schema_shape_validator_rejects :
    validateJSONSchema (.obj [("type", .str "tuple")]) = false ∧
    validateJSONSchema (.obj [("type", .str "object")]) = false ∧
    (∀ s b : JSValue, SchemaReach s b → BadSchemaNode b → validateJSONSchema s = false) := by
  refine ⟨rfl, rfl, ?_⟩
  intro s b hr hb
  cases hv : validateJSONSchema s with
  | false => rfl
  | true =>
    have hbt := validateJSONSchema_reach hr hv
    rw [validateJSONSchema_bad hb] at hbt
    exact Bool.noConfusion hbt

/-- Witness for C6: a `tuple`-tagged node nested two levels deep (through
`object.properties` and then `array.items`) makes the whole schema invalid. -/
theorem c6_schema_shape_validator_rejects_witness :
    validateJSONSchema (.obj [("type", .str "object"),
      ("properties", .obj [("x", .obj [("type", .str "array"),
        ("items", .obj [("type", .str "tuple")])])])]) = false :=
  c6_schema_shape_validator_rejects.2.2 _ (.obj [("type", .str "tuple")])
    (SchemaReach.step (SchemaChild.propField rfl rfl (List.Mem.head _))
      (SchemaReach.step (SchemaChild.items rfl rfl) (SchemaReach.refl _)))
    (Or.inl (by decide))

/-- C8: for an `array` schema, `validateAgainstSchema` on an array value is
exactly the conjunction of its elements' conformance to `items` (hence the
empty array always passes), whatever the declared `minItems`/`maxItems` are —
those bounds are never consulted during value validation. -/
theorem c8_array_bounds_not_enforced (items : Schema) (minI maxI : Option Nat)
    (elems : List JSValue) :
    validateAgainstSchema (.arr elems) (.array items minI maxI)
        = elems.all (fun v => validateAgainstSchema v items) ∧
    validateAgainstSchema (.arr []) (.array items minI maxI) = true :=
  ⟨rfl, rfl⟩

/-- C2 counterexample: `DEVICE_NOT_ELIGIBLE` — one of the model-specific
unavailability codes the claim lists — is not in the seven-element
`TEXT_GENERATION_ERROR_CODES` set, so the normalizer coerces such a raw value
to the generic runtime code instead of preserving its code. -/
theorem c2_counterexample :
    (toTextGenerationError (.obj (some (.strv "DEVICE_NOT_ELIGIBLE"))
        (some (.strv "Device not eligible.")) none none none)).code
      = "ERR_TEXT_GENERATION_RUNTIME" ∧
    "ERR_TEXT_GENERATION_RUNTIME" ≠ "DEVICE_NOT_ELIGIBLE" :=
  ⟨rfl, by decide⟩

/-- C2 (amended): for every raw object carrying a string `code` that is in
the seven-element `TEXT_GENERATION_ERROR_CODES` set together with a string
`message` — whether or not the object is an `Error` instance — the normalizer
preserves code, message and cause, and keeps the `nativeCode`/`nativeDomain`
diagnostics exactly when they have the right primitive type. -/
theorem c2_known_codes_preserved (c m : String) (cs nc nd : Option RawValue)
    (hc : c ∈ TEXT_GENERATION_ERROR_CODES) :
    toTextGenerationError (.errObj m (some (.strv c)) cs nc nd)
      = { code := c, message := m, cause := cs,
          nativeCode := propAsNumber nc, nativeDomain := propAsString nd } ∧
    toTextGenerationError (.obj (some (.strv c)) (some (.strv m)) cs nc nd)
      = { code := c, message := m, cause := cs,
          nativeCode := propAsNumber nc, nativeDomain := propAsString nd } := by
  constructor <;> simp [toTextGenerationError, hc]

/-- Witness for C2 at a concrete coded native failure with diagnostics. -/
theorem c2_known_codes_preserved_witness :
    toTextGenerationError (.errObj "timed out" (some (.strv "ERR_TEXT_GENERATION_TIMEOUT"))
        (some (.strv "underlying")) (some (.numv 42)) (some (.strv "NSCocoaErrorDomain")))
      = { code := "ERR_TEXT_GENERATION_TIMEOUT", message := "timed out",
          cause := some (.strv "underlying"), nativeCode := some 42,
          nativeDomain := some "NSCocoaErrorDomain" } :=
  (c2_known_codes_preserved "ERR_TEXT_GENERATION_TIMEOUT" "timed out"
      (some (.strv "underlying")) (some (.numv 42)) (some (.strv "NSCocoaErrorDomain"))
      (by decide)).1

/-- C9: the normalizer is idempotent — an already-normalized error (a
`TextGenerationError` instance) is returned unchanged, with the same code,
message and cause, so applying the normalizer twice equals applying it once. -/
theorem c9_normalizer_idempotent :
    (∀ c m cs nc nd, toTextGenerationError (.tge c m cs nc nd)
        = { code := c, message := m, cause := cs, nativeCode := nc, nativeDomain := nd }) ∧
    (∀ e : RawValue,
        toTextGenerationError (toTextGenerationError e).toRaw = toTextGenerationError e) := by
  have hfix : ∀ x : TextGenerationError, toTextGenerationError x.toRaw = x := by
    intro x
    cases x
    rfl
  exact ⟨fun _ _ _ _ _ => rfl, fun e => hfix (toTextGenerationError e)⟩

/-- The seed/instruction normalization the spec describes: the trimmed string
when that trim is non-empty, absent otherwise. -/
def seedNormalize (s : Option String) : Option String :=
  match s with
  | some v => if jsTrim v = "" then none else some (jsTrim v)
  | none => none

/-- C10: the `LLMSession` constructor (and `create`) stores the trimmed seed
session id when its trim is non-empty and no id otherwise — a whitespace-only
seed id yields an uninitialized session — which is the same trim-to-absent
normalization it applies to the seed instructions. -/
theorem c10_create_normalizes_seed_id (instructions sessionId : Option String) :
    (LLMSession.create { instructions := instructions, sessionId := sessionId }).sessionId
        = seedNormalize sessionId ∧
    (LLMSession.create { instructions := instructions, sessionId := sessionId }).instructions
        = seedNormalize instructions ∧
    LLMSession.construct { instructions := instructions, sessionId := sessionId }
        = LLMSession.create { instructions := instructions, sessionId := sessionId } := by
  refine ⟨?_, ?_, rfl⟩
  · cases sessionId <;> rfl
  · cases instructions <;> rfl

/-- C7: `reset` replaces only the instructions (a trimmed-empty value becomes
no instructions) and keeps the session id, so the request payload a following
`ask` builds carries the new instructions as `system` together with the
previously established id. -/
theorem c7_reset_keeps_id (st : SessionState) (instructions : Option String) (p : AskParams) :
    (LLMSession.reset st instructions).sessionId = st.sessionId ∧
    (LLMSession.reset st instructions).instructions = seedNormalize instructions ∧
    (buildAskOptions (LLMSession.reset st instructions) p).sessionId = st.sessionId ∧
    (buildAskOptions (LLMSession.reset st instructions) p).system = seedNormalize instructions := by
  refine ⟨rfl, ?_, rfl, ?_⟩ <;> cases instructions <;> rfl

/-- C3: for a prompt that is non-empty after trimming, `ask` overwrites the
stored session id with whatever id the native layer returns on success (even
if it differs from the one sent), and on failure leaves both the id and the
instructions exactly as they were, re-throwing the normalized error. -/
theorem c3_ask_state_transition (st : SessionState) (p : AskParams)
    (native : NativeTextGenerationOptions → Except RawValue TextGenerationResult)
    (h : jsTrim p.prompt ≠ "") :
    (∀ r, native (buildAskOptions st p) = .ok r →
        LLMSession.ask st p native = ({ st with sessionId := some r.sessionId }, .ok r.text)) ∧
    (∀ e, native (buildAskOptions st p) = .error e →
        LLMSession.ask st p native = (st, .error (toTextGenerationError e))) := by
  constructor
  · intro r hr
    unfold LLMSession.ask
    rw [if_neg h, hr]
  · intro e he
    unfold LLMSession.ask
    rw [if_neg h, he]

/-- Witness for C3 at a concrete established session whose native layer
returns a different id. -/
theorem c3_ask_state_transition_witness :
    LLMSession.ask { sessionId := some "old", instructions := some "sys" }
        { prompt := "hello", temperature := none, maxOutputTokens := none }
        (fun _ => .ok { text := "answer", sessionId := "fresh" })
      = ({ sessionId := some "fresh", instructions := some "sys" }, .ok "answer") :=
  (c3_ask_state_transition { sessionId := some "old", instructions := some "sys" }
      { prompt := "hello", temperature := none, maxOutputTokens := none }
      (fun _ => .ok { text := "answer", sessionId := "fresh" })
      (by decide)).1 { text := "answer", sessionId := "fresh" } rfl

/-- C4 counterexample: `generateText` on a whitespace-only prompt throws the
plain `Error("Prompt must be a non-empty string.")` of src/index.ts line 64,
a value carrying no `code` property at all — in particular not the
`ERR_TEXT_PROMPT_INVALID` code the claim asserts. -/
theorem c4_counterexample :
    generateText { prompt := "   ", instructions := none, temperature := none,
                   maxOutputTokens := none, sessionId := none }
        (fun _ => .ok { text := "ignored", sessionId := "s" })
      = .error (.errObj "Prompt must be a non-empty string." none none none none) ∧
    rawCodeString (.errObj "Prompt must be a non-empty string." none none none none) = none :=
  ⟨rfl, rfl⟩

/-- C4 (amended): with a prompt that is empty after trimming, both entry
points fail without consulting the native boundary — formalized as the
outcome being identical for every native function — `Session.ask` with the
normalized `ERR_TEXT_PROMPT_INVALID` error and unchanged state, but
`generateText` with a plain uncoded `Error` whose message is
"Prompt must be a non-empty string.", not with a `PROMPT_INVALID` code. -/
theorem c4_empty_prompt_local_failure (opts : TextGenerationOptions)
    (st : SessionState) (p : AskParams)
    (ht : jsTrim opts.prompt = "") (ha : jsTrim p.prompt = "") :
    (∀ n1 n2, generateText opts n1 = generateText opts n2) ∧
    (∀ n, generateText opts n
        = .error (.errObj "Prompt must be a non-empty string." none none none none)) ∧
    (∀ n1 n2, LLMSession.ask st p n1 = LLMSession.ask st p n2) ∧
    (∀ n, LLMSession.ask st p n
        = (st, .error { code := "ERR_TEXT_PROMPT_INVALID",
                        message := "Prompt must be a non-empty string.",
                        cause := none, nativeCode := none, nativeDomain := none })) := by
  have hg : ∀ n, generateText opts n
      = .error (.errObj "Prompt must be a non-empty string." none none none none) := by
    intro n
    unfold generateText
    rw [ht]
    rfl
  have hask : ∀ n, LLMSession.ask st p n
      = (st, .error { code := "ERR_TEXT_PROMPT_INVALID",
                      message := "Prompt must be a non-empty string.",
                      cause := none, nativeCode := none, nativeDomain := none }) := by
    intro n
    unfold LLMSession.ask
    rw [ha]
    rfl
  exact ⟨fun n1 n2 => (hg n1).trans (hg n2).symm, hg,
         fun n1 n2 => (hask n1).trans (hask n2).symm, hask⟩

/-- Witness for C4 at a whitespace-only prompt against an always-succeeding
native boundary. -/
theorem c4_empty_prompt_local_failure_witness :
    generateText { prompt := " ", instructions := none, temperature := none,
                   maxOutputTokens := none, sessionId := none }
        (fun _ => .ok { text := "t", sessionId := "s" })
      = .error (.errObj "Prompt must be a non-empty string." none none none none) ∧
    LLMSession.ask { sessionId := some "id0", instructions := none }
        { prompt := " ", temperature := none, maxOutputTokens := none }
        (fun _ => .ok { text := "t", sessionId := "s2" })
      = ({ sessionId := some "id0", instructions := none },
         .error { code := "ERR_TEXT_PROMPT_INVALID",
                  message := "Prompt must be a non-empty string.",
                  cause := none, nativeCode := none, nativeDomain := none }) :=
  ⟨(c4_empty_prompt_local_failure
      { prompt := " ", instructions := none, temperature := none,
        maxOutputTokens := none, sessionId := none }
      { sessionId := some "id0", instructions := none }
      { prompt := " ", temperature := none, maxOutputTokens := none }
      (by decide) (by decide)).2.1
      (fun _ => .ok { text := "t", sessionId := "s" }),
   (c4_empty_prompt_local_failure
      { prompt := " ", instructions := none, temperature := none,
        maxOutputTokens := none, sessionId := none }
      { sessionId := some "id0", instructions := none }
      { prompt := " ", temperature := none, maxOutputTokens := none }
      (by decide) (by decide)).2.2.2
      (fun _ => .ok { text := "t", sessionId := "s2" })⟩

/-- C1: evaluation at the failing input.  The native guided path signals
"unsupported" with the object-domain code `ERR_OBJECT_GENERATION_UNSUPPORTED`
(`ObjectGenerationUnsupportedException` in the iOS module; the Android module
likewise), yet the dispatcher's catch falls through to the text path only on
`ERR_TEXT_GENERATION_UNSUPPORTED` (src/index.ts line 216).  The first
conjunct shows a guided failure carrying the code the guided path actually
raises propagating to the caller unchanged — no fallback — while the second
shows that the text-domain code, which the guided path never raises, is what
does trigger the fallback. -/
theorem c1_unsupported_code_mismatch :
    generateObject { prompt := "hi", instructions := none, schema := .boolean, sessionId := none }
        (fun s => if s = "true" then .ok (.boolv true)
                  else .error (.errObj "SyntaxError" none none none none))
        (some (fun _ => .error (.errObj
          "Structured generation requires iOS 26 or later on Apple Intelligence-capable hardware."
          (some (.strv "ERR_OBJECT_GENERATION_UNSUPPORTED")) none none none)))
        (fun _ => .ok { text := "true", sessionId := "s1" })
      = .error (.errObj
          "Structured generation requires iOS 26 or later on Apple Intelligence-capable hardware."
          (some (.strv "ERR_OBJECT_GENERATION_UNSUPPORTED")) none none none) ∧
    generateObject { prompt := "hi", instructions := none, schema := .boolean, sessionId := none }
        (fun s => if s = "true" then .ok (.boolv true)
                  else .error (.errObj "SyntaxError" none none none none))
        (some (fun _ => .error (.errObj "unsupported"
          (some (.strv "ERR_TEXT_GENERATION_UNSUPPORTED")) none none none)))
        (fun _ => .ok { text := "true", sessionId := "s1" })
      = .ok { object := .boolv true, sessionId := "s1" } :=
  ⟨rfl, rfl⟩

/-- C5: on the text-based fallback path — taken when no guided capability
exists, or when the guided attempt failed with the code the dispatcher's
catch treats as the unsupported signal — a failing `generateText` makes
`generateObject` fail with the object-domain `ERR_OBJECT_GENERATION_RUNTIME`
code carrying the underlying failure's message (the thrown value on this path
is always a normalized error, whose message is a string, so the
`"Object generation failed"` default never replaces it); a returned text that
does not parse as JSON yields `ERR_OBJECT_GENERATION_DECODE_FAILED`; and a
parsed value that fails schema validation also yields
`ERR_OBJECT_GENERATION_DECODE_FAILED`. -/
theorem c5_fallback_error_taxonomy (options : ObjectGenerationOptions)
    (parseJSON : String → Except RawValue JSValue)
    (nativeObject :
      Option (NativeObjectGenerationOptions → Except RawValue NativeObjectGenerationResult))
    (nativeText : NativeTextGenerationOptions → Except RawValue TextGenerationResult)
    (hp : jsTrim options.prompt ≠ "")
    (hs : validateJSONSchema options.schema.toJSValue = true)
    (hfb : nativeObject = none ∨
      ∃ f e, nativeObject = some f ∧ guidedAttempt options parseJSON f = .error e ∧
        rawCodeString e = some "ERR_TEXT_GENERATION_UNSUPPORTED") :
    (∀ e, generateText (fallbackTextOptions options) nativeText = .error e →
        generateObject options parseJSON nativeObject nativeText
          = .error (.errObj ((rawMessageString e).getD "Object generation failed")
              (some (.strv "ERR_OBJECT_GENERATION_RUNTIME")) none none none)) ∧
    (∀ r pe, generateText (fallbackTextOptions options) nativeText = .ok r →
        parseJSON r.text = .error pe →
        generateObject options parseJSON nativeObject nativeText
          = .error (.errObj "Model did not return valid JSON"
              (some (.strv "ERR_OBJECT_GENERATION_DECODE_FAILED")) none none none)) ∧
    (∀ r v, generateText (fallbackTextOptions options) nativeText = .ok r →
        parseJSON r.text = .ok v → validateAgainstSchema v options.schema = false →
        generateObject options parseJSON nativeObject nativeText
          = .error (.errObj "Model output does not match schema"
              (some (.strv "ERR_OBJECT_GENERATION_DECODE_FAILED")) none none none)) := by
  have hgen : generateObject options parseJSON nativeObject nativeText
      = objectFallback options parseJSON nativeText := by
    unfold generateObject
    rw [if_neg hp, hs]
    simp only [Bool.not_true, Bool.false_eq_true, if_false]
    rcases hfb with hnone | ⟨f, e, hf, hge, hcode⟩
    · rw [hnone]
    · rw [hf]
      simp only []
      rw [hge]
      simp only []
      rw [if_pos hcode]
  refine ⟨?_, ?_, ?_⟩
  · intro e he
    rw [hgen]
    unfold objectFallback
    rw [he]
    simp only []
    cases hm : rawMessageString e <;> rfl
  · intro r pe hok hpe
    rw [hgen]
    unfold objectFallback
    rw [hok]
    simp only []
    rw [hpe]
  · intro r v hok hv hval
    rw [hgen]
    unfold objectFallback
    rw [hok]
    simp only []
    rw [hv]
    simp only []
    rw [hval]
    rfl

/-- Witness for C5: with no guided capability, a text path returning
non-JSON prose makes `generateObject` fail with the decode-failed code. -/
theorem c5_fallback_error_taxonomy_witness :
    generateObject { prompt := "hi", instructions := none, schema := .boolean, sessionId := none }
        (fun _ => .error (.errObj "SyntaxError: Unexpected token" none none none none))
        none
        (fun _ => .ok { text := "Sure! \x7bnot json", sessionId := "s1" })
      = .error (.errObj "Model did not return valid JSON"
          (some (.strv "ERR_OBJECT_GENERATION_DECODE_FAILED")) none none none) :=
  (c5_fallback_error_taxonomy
      { prompt := "hi", instructions := none, schema := .boolean, sessionId := none }
      (fun _ => .error (.errObj "SyntaxError: Unexpected token" none none none none))
      none
      (fun _ => .ok { text := "Sure! \x7bnot json", sessionId := "s1" })
      (by decide) rfl (Or.inl rfl)).2.1
    { text := "Sure! \x7bnot json", sessionId := "s1" }
    (.errObj "SyntaxError: Unexpected token" none none none none)
    rfl rfl
